import Mathlib

/-!
Verification of the Core3 Navmesh Viewer (Go) against its specification.

The development shallowly embeds the relevant parts of `main.go` (and the
extended multi-mesh variant shipped in the repository's README):

* `loadOBJFile` : the OBJ geometry parser, over a list of input lines.
  Strings are modelled as `List Char`; `strings.Fields`, `strings.Split`
  and `strconv.Atoi` are embedded below.  The float32 coordinate parse
  (`strconv.ParseFloat(_, 32)`) is kept abstract as a parameter
  `pf : GoString → F`, since the claims about the parser concern counts,
  ordering and index arithmetic, never float values.
* `mouseCallback` : the camera orientation state machine, with float64
  arithmetic modelled over `ℚ` and the trigonometric front-vector
  computation kept abstract as a parameter `dirFn`.
* `processInput`'s speed-multiplier section, `checkFileReload`, the
  main loop's reload step and frame-pacing sleep, `combineBounds`,
  `calculateBounds`, `loadSingleMesh`, `loadAllMeshes`.
-/

/-- Go strings are modelled as lists of characters. -/
abbrev GoString := List Char

/-- `unicode.IsSpace` restricted to the ASCII range (space, \t, \n, \v, \f,
\r), which is what `strings.Fields` splits on for OBJ file content. -/
def goIsSpace (c : Char) : Bool :=
  c = ' ' || c = '\t' || c = '\n' || c = Char.ofNat 11 || c = Char.ofNat 12 || c = '\r'

/-- Helper for `goFields`: accumulates the current field (reversed). -/
def goFieldsAux : List Char → List Char → List GoString
  | [], acc => if acc.isEmpty then [] else [acc.reverse]
  | c :: cs, acc =>
    if goIsSpace c then
      if acc.isEmpty then goFieldsAux cs [] else acc.reverse :: goFieldsAux cs []
    else goFieldsAux cs (c :: acc)

/-- `strings.Fields`: split around runs of whitespace, no empty fields. -/
def goFields (s : GoString) : List GoString := goFieldsAux s []

/-- The first component of `strings.Split(s, "/")`: the prefix of `s`
before the first slash (the whole string when there is no slash). -/
def goSplitSlashHead (s : GoString) : GoString := s.takeWhile (fun c => c ≠ '/')

/-- `strconv.Atoi`: optional sign, then decimal digits.  On a syntax error
the Go function returns 0 (the error is discarded at the call site); on
range overflow it returns the value clamped to the int64 range. -/
def goAtoi (s : GoString) : Int :=
  match s with
  | [] => 0
  | c :: rest =>
    let neg : Bool := c = '-'
    let digits : List Char := if c = '-' || c = '+' then rest else s
    if digits.isEmpty then 0
    else if digits.all Char.isDigit then
      let n : Nat := digits.foldl (fun acc d => acc * 10 + (d.toNat - 48)) 0
      let v : Int := if neg then -(n : Int) else (n : Int)
      if v > 2 ^ 63 - 1 then 2 ^ 63 - 1
      else if v < -(2 ^ 63) then -(2 ^ 63) else v
    else 0

/-- One face field of an `f` record: `strings.Split(fields[i], "/")` takes
the leading position reference, `strconv.Atoi` parses it (errors
discarded), and `uint32(idx-1)` converts to a zero-based unsigned 32-bit
index, wrapping modulo 2^32. -/
def faceFieldIndex (s : GoString) : Nat :=
  ((goAtoi (goSplitSlashHead s) - 1) % (2 ^ 32 : Int)).toNat

/-- The contribution of a single input line to `loadOBJFile`'s output:
vertex floats (via the abstract float32 parse `pf`) and face indices.
Mirrors the `switch fields[0]` body: a `v` line with at least 3 following
fields yields the first three parsed coordinates; an `f` line with at
least 3 following fields yields one index per following field; everything
else yields nothing. -/
def processLine {F : Type} (pf : GoString → F) (line : GoString) :
    List F × List Nat :=
  match goFields line with
  | [] => ([], [])
  | tok :: args =>
    if tok = ['v'] then
      match args with
      | a1 :: a2 :: a3 :: _ => ([pf a1, pf a2, pf a3], [])
      | _ => ([], [])
    else if tok = ['f'] then
      if args.length < 3 then ([], [])
      else ([], args.map faceFieldIndex)
    else ([], [])

/-- `loadOBJFile` over the file's lines: a single pass appending each
line's vertex floats and face indices in file order.  (The Go code stores
vertices in `tempVertices` and flattens at the end, which preserves file
order, so the two buffers are exactly these concatenations.) -/
def loadOBJFile {F : Type} (pf : GoString → F) :
    List GoString → List F × List Nat
  | [] => ([], [])
  | l :: ls =>
    let p := processLine pf l
    let r := loadOBJFile pf ls
    (p.1 ++ r.1, p.2 ++ r.2)

/-- A position record in the sense of the spec: first field `v`, at least
3 following fields. -/
def isVRecord (l : GoString) : Bool :=
  match goFields l with
  | tok :: args => tok = ['v'] && decide (3 ≤ args.length)
  | [] => false

/-- A triangular face record in the sense of the spec: first field `f`,
exactly 3 following fields. -/
def isTriFRecord (l : GoString) : Bool :=
  match goFields l with
  | tok :: args => tok = ['f'] && decide (args.length = 3)
  | [] => false

/-- The three coordinate fields of a position record, parsed. -/
def vertTriple {F : Type} (pf : GoString → F) (l : GoString) : List F :=
  (((goFields l).drop 1).take 3).map pf

/-- The reference fields of a face record. -/
def faceRefs (l : GoString) : List GoString := (goFields l).drop 1

/-- Claim-side vertex buffer: the position records' coordinate triples in
file order, everything else contributing nothing. -/
def vertexBufferSpec {F : Type} (pf : GoString → F) : List GoString → List F
  | [] => []
  | l :: ls =>
    (if isVRecord l then vertTriple pf l else []) ++ vertexBufferSpec pf ls

/-- Claim-side index buffer: for each triangular face record in file
order, each reference field's leading integer minus one. -/
def indexBufferSpec : List GoString → List Nat
  | [] => []
  | l :: ls =>
    (if isTriFRecord l then
      (faceRefs l).map (fun a => (goAtoi (goSplitSlashHead a)).toNat - 1)
    else []) ++ indexBufferSpec ls

/-! ### Camera orientation: `mouseCallback` -/

/-- `mouseSensitivity` constant from `main.go`. -/
def mouseSensitivity : ℚ := 1 / 10

/-- The mutable globals read and written by `mouseCallback`.  float64
arithmetic is modelled over `ℚ`; `cameraFront` is a 3-vector. -/
structure MouseState where
  lastX : ℚ
  lastY : ℚ
  firstMouse : Bool
  yaw : ℚ
  pitch : ℚ
  cameraFront : ℚ × ℚ × ℚ
  deriving Repr, DecidableEq

/-- `mouseCallback(xpos, ypos)`.  The spherical-to-Cartesian front-vector
computation (cos/sin of yaw and pitch) is kept abstract as `dirFn`; the
source normalizes the result, which is likewise absorbed into `dirFn`. -/
def mouseCallback (dirFn : ℚ → ℚ → ℚ × ℚ × ℚ) (s : MouseState)
    (xpos ypos : ℚ) : MouseState :=
  if s.firstMouse then
    { s with lastX := xpos, lastY := ypos, firstMouse := false }
  else
    let xoffset := (xpos - s.lastX) * mouseSensitivity
    let yoffset := (s.lastY - ypos) * mouseSensitivity
    let yaw' := s.yaw + xoffset
    let pitch0 := s.pitch + yoffset
    let pitch1 := if pitch0 > 89 then (89 : ℚ) else pitch0
    let pitch2 := if pitch1 < -89 then (-89 : ℚ) else pitch1
    { lastX := xpos, lastY := ypos, firstMouse := false,
      yaw := yaw', pitch := pitch2, cameraFront := dirFn yaw' pitch2 }

/-- Deliver a sequence of cursor-position samples to `mouseCallback`. -/
def runMouse (dirFn : ℚ → ℚ → ℚ × ℚ × ℚ) : MouseState → List (ℚ × ℚ) → MouseState
  | s, [] => s
  | s, (x, y) :: rest => runMouse dirFn (mouseCallback dirFn s x y) rest

/-! ### Speed multiplier cycling: `processInput` -/

/-- `speedMultipliers` list from `main.go`. -/
def speedMultipliers : List ℚ := [1, 5, 10, 20, 40]

/-- The speed-cycling state: `currentSpeedIndex` and `lastShiftState`
(`true` = `glfw.Press`). -/
structure SpeedState where
  currentSpeedIndex : Nat
  lastShiftState : Bool
  deriving Repr, DecidableEq

/-- The speed-multiplier section of `processInput`: on a released-to-
pressed transition of left shift, advance the index circularly; always
record the current shift state.  (The camera-movement section of
`processInput` does not touch this state.) -/
def processInputSpeed (s : SpeedState) (currentShiftState : Bool) : SpeedState :=
  let idx :=
    if currentShiftState && !s.lastShiftState then
      (s.currentSpeedIndex + 1) % speedMultipliers.length
    else s.currentSpeedIndex
  { currentSpeedIndex := idx, lastShiftState := currentShiftState }

/-- Run `processInputSpeed` over a sequence of per-frame shift states. -/
def runSpeed : SpeedState → List Bool → SpeedState
  | s, [] => s
  | s, b :: rest => runSpeed (processInputSpeed s b) rest

/-! ### Frame pacing sleep -/

/-- Go's conversion of a float64 to an integer type truncates toward
zero: floor for nonnegative values, ceiling for negative ones. -/
def goTrunc (d : ℚ) : Int := if d < 0 then ⌈d⌉ else ⌊d⌋

/-- `time.Second` in nanoseconds. -/
def timeSecond : Int := 1000000000

/-- The argument of the end-of-frame `time.Sleep` in `main`:
`time.Second/60 - time.Duration(deltaTime)*time.Second` (nanoseconds).
`time.Duration(deltaTime)` converts the float64 seconds value to an
int64 nanosecond count by truncation. -/
def frameSleepArgNs (deltaTime : ℚ) : Int :=
  timeSecond / 60 - goTrunc deltaTime * timeSecond

/-- The wait actually performed: `time.Sleep` returns immediately for a
zero or negative duration. -/
def frameWaitNs (deltaTime : ℚ) : Int := max 0 (frameSleepArgNs deltaTime)

/-- Modelled from the spec: the claimed pacing wait, in nanoseconds — the
1/60-second budget minus the measured frame delta, clamped at zero. -/
def claimedWaitNs (deltaTime : ℚ) : ℚ :=
  max 0 ((1000000000 : ℚ) / 60 - deltaTime * 1000000000)

/-! ### Bounds and scene loading -/

/-- Axis-aligned bounding box (float32 fields modelled over `ℚ`). -/
structure Bounds where
  minX : ℚ
  minY : ℚ
  minZ : ℚ
  maxX : ℚ
  maxY : ℚ
  maxZ : ℚ
  deriving Repr, DecidableEq

/-- `combineBounds(a, b)`: elementwise `math.Min` of the min corners and
`math.Max` of the max corners. -/
def combineBounds (a b : Bounds) : Bounds :=
  { minX := min a.minX b.minX
    minY := min a.minY b.minY
    minZ := min a.minZ b.minZ
    maxX := max a.maxX b.maxX
    maxY := max a.maxY b.maxY
    maxZ := max a.maxZ b.maxZ }

/-- The fold body of `calculateBounds`: widen the box by one vertex. -/
def boundsStep (b : Bounds) (x y z : ℚ) : Bounds :=
  { minX := min b.minX x, maxX := max b.maxX x
    minY := min b.minY y, maxY := max b.maxY y
    minZ := min b.minZ z, maxZ := max b.maxZ z }

/-- The `for i := 0; i < len(vertices); i += 3` loop of `calculateBounds`,
consuming the flat coordinate list three at a time.  (The source indexes
`i`, `i+1`, `i+2` and would panic on a length not a multiple of 3; its
callers only pass buffers built three floats at a time.) -/
def boundsLoop : List ℚ → Bounds → Bounds
  | x :: y :: z :: rest, b => boundsLoop rest (boundsStep b x y z)
  | _, b => b

/-- `calculateBounds(vertices)`: seed the box from the first vertex, then
fold the loop over all vertices.  (The source reads `vertices[0..2]`
unconditionally and panics on an empty buffer; its callers guard against
that, so the `getD` defaults are never reached in any modelled use.) -/
def calculateBounds (vertices : List ℚ) : Bounds :=
  let b0 : Bounds :=
    { minX := vertices.getD 0 0, maxX := vertices.getD 0 0
      minY := vertices.getD 1 0, maxY := vertices.getD 1 0
      minZ := vertices.getD 2 0, maxZ := vertices.getD 2 0 }
  boundsLoop vertices b0

/-- A mesh record.  The GPU handle fields (`vao`, `vbo`, `ebo`) are
OpenGL side effects and are omitted from the model. -/
structure MeshData where
  vertices : List ℚ
  indices : List Nat
  bounds : Bounds
  deriving Repr, DecidableEq

/-- The Go zero value `MeshData{}`: the empty placeholder returned for a
degenerate file. -/
def emptyMeshData : MeshData :=
  { vertices := [], indices := [],
    bounds := { minX := 0, minY := 0, minZ := 0, maxX := 0, maxY := 0, maxZ := 0 } }

/-- A scene: mesh records plus the combined bounding box. -/
structure Scene where
  meshes : List MeshData
  bounds : Bounds
  deriving Repr, DecidableEq

/-- `loadSingleMesh(program, filename)` over a file's lines, with the
float32 coordinate parse abstract as `pf`: parse the file; if it yields
zero vertices or zero indices, log a warning and return the empty
placeholder `MeshData{}`; otherwise compute the bounds and keep the
buffers.  (GPU buffer creation is omitted.) -/
def loadSingleMesh (pf : GoString → ℚ) (fileLines : List GoString) : MeshData :=
  let vi := loadOBJFile pf fileLines
  if vi.1.length = 0 ∨ vi.2.length = 0 then emptyMeshData
  else { vertices := vi.1, indices := vi.2, bounds := calculateBounds vi.1 }

/-- The `for i := 1; ...` loop of `loadAllMeshes`: load each remaining
file and fold its bounds into the scene's combined bounds. -/
def loadMeshesRest (pf : GoString → ℚ) : List (List GoString) → Scene → Scene
  | [], s => s
  | f :: fs, s =>
    let m := loadSingleMesh pf f
    loadMeshesRest pf fs
      { meshes := s.meshes ++ [m], bounds := combineBounds s.bounds m.bounds }

/-- `loadAllMeshes(program, filenames)` over the files' contents: the
first mesh seeds the combined bounds, the rest are folded in.  (The
source indexes `filenames[0]` and would panic on an empty list; `main`
only reaches it with a non-empty selection.  `initializeCamera` at the
end mutates only camera globals, not the returned scene.) -/
def loadAllMeshes (pf : GoString → ℚ) : List (List GoString) → Scene
  | [] => { meshes := [], bounds := emptyMeshData.bounds }
  | f0 :: rest =>
    let firstMesh := loadSingleMesh pf f0
    loadMeshesRest pf rest { meshes := [firstMesh], bounds := firstMesh.bounds }

/-! ### Hot reload -/

/-- The result of `selectOBJFiles`: a list of paths and an error flag.
A cancelled dialog yields `([], true)` (`"no files selected"`); a
successful selection yields the paths with no error. -/
structure SelResult where
  files : List GoString
  isErr : Bool
  deriving Repr, DecidableEq

/-- `checkFileReload(window)`: if F1 currently reads as pressed, invoke
the file-selection dialog and return its result; otherwise return
`(nil, nil)`.  The second component records whether the dialog was
invoked. -/
def checkFileReload (f1Pressed : Bool) (sel : SelResult) : SelResult × Bool :=
  if f1Pressed then (sel, true) else ({ files := [], isErr := false }, false)

/-- Modelled from the spec: a press-edge at frame `t` of a per-frame key
state sequence — pressed at `t` and released at `t-1` (the state before
frame 0 counts as released). -/
def specPressEdgeAt (states : List Bool) (t : Nat) : Bool :=
  states.getD t false && !(if t = 0 then false else states.getD (t - 1) false)

/-- The reload block of the main loop:
`if newFiles, err := checkFileReload(window); err == nil && len(newFiles) > 0`
— only then is the old scene cleaned up, a new scene loaded and the
window title updated.  `load` abstracts `loadAllMeshes` applied to the
selected paths; the returned flag records whether the swap (and title
update) happened. -/
def reloadStep (load : List GoString → Scene) (scene : Scene)
    (chk : SelResult) : Scene × Bool :=
  if !chk.isErr && decide (0 < chk.files.length) then (load chk.files, true)
  else (scene, false)

/-! ### Lemmas about the OBJ parser -/

lemma processLine_fst {F : Type} (pf : GoString → F) (l : GoString) :
    (processLine pf l).1 = if isVRecord l then vertTriple pf l else [] := by
  cases hg : goFields l with
  | nil => simp [processLine, isVRecord, hg]
  | cons tok args =>
    by_cases hv : tok = ['v']
    · subst hv
      rcases args with _ | ⟨a1, _ | ⟨a2, _ | ⟨a3, rest⟩⟩⟩ <;>
        simp [processLine, isVRecord, vertTriple, hg]
    · by_cases hf : tok = ['f']
      · subst hf
        have : (processLine pf l).2 = (processLine pf l).2 := rfl
        by_cases h3 : args.length < 3 <;>
          simp [processLine, isVRecord, hg, hv, h3]
      · simp [processLine, isVRecord, hg, hv, hf]

lemma processLine_snd {F : Type} (pf : GoString → F) (l : GoString)
    (h : ∀ tok args, goFields l = tok :: args → tok = ['f'] → args.length ≤ 3) :
    (processLine pf l).2 =
      if isTriFRecord l then (faceRefs l).map faceFieldIndex else [] := by
  cases hg : goFields l with
  | nil => simp [processLine, isTriFRecord, hg]
  | cons tok args =>
    by_cases hv : tok = ['v']
    · subst hv
      rcases args with _ | ⟨a1, _ | ⟨a2, _ | ⟨a3, rest⟩⟩⟩ <;>
        simp [processLine, isTriFRecord, hg]
    · by_cases hf : tok = ['f']
      · subst hf
        have hlen := h _ _ hg rfl
        by_cases h3 : args.length < 3
        · have hne : args.length ≠ 3 := by omega
          simp [processLine, isTriFRecord, hg, h3, hne]
        · have heq : args.length = 3 := by omega
          simp [processLine, isTriFRecord, faceRefs, hg, h3, heq]
      · simp [processLine, isTriFRecord, hg, hv, hf]

lemma vertTriple_length {F : Type} (pf : GoString → F) (l : GoString)
    (h : isVRecord l = true) : (vertTriple pf l).length = 3 := by
  unfold vertTriple
  cases hg : goFields l with
  | nil => simp [isVRecord, hg] at h
  | cons tok args =>
    simp [isVRecord, hg] at h
    simp [hg, List.length_take, Nat.min_eq_left h.2]

lemma faceRefs_length (l : GoString) (h : isTriFRecord l = true) :
    (faceRefs l).length = 3 := by
  unfold faceRefs
  cases hg : goFields l with
  | nil => simp [isTriFRecord, hg] at h
  | cons tok args =>
    simp [isTriFRecord, hg] at h
    simp [hg, h.2]

lemma faceFieldIndex_eq (a : GoString)
    (h1 : 1 ≤ goAtoi (goSplitSlashHead a))
    (h2 : goAtoi (goSplitSlashHead a) ≤ 2 ^ 32) :
    faceFieldIndex a = (goAtoi (goSplitSlashHead a)).toNat - 1 := by
  unfold faceFieldIndex
  rw [Int.emod_eq_of_lt (by omega) (by omega)]
  omega

lemma vertexBufferSpec_length {F : Type} (pf : GoString → F)
    (lines : List GoString) :
    (vertexBufferSpec pf lines).length = 3 * lines.countP isVRecord := by
  induction lines with
  | nil => simp [vertexBufferSpec]
  | cons l ls ih =>
    by_cases hv : isVRecord l = true
    · simp [vertexBufferSpec, hv, ih, vertTriple_length pf l hv,
        List.countP_cons, Nat.mul_add]
      ring
    · simp [vertexBufferSpec, hv, ih, List.countP_cons]

lemma indexBufferSpec_length (lines : List GoString) :
    (indexBufferSpec lines).length = 3 * lines.countP isTriFRecord := by
  induction lines with
  | nil => simp [indexBufferSpec]
  | cons l ls ih =>
    by_cases hf : isTriFRecord l = true
    · simp [indexBufferSpec, hf, ih, faceRefs_length l hf,
        List.countP_cons, Nat.mul_add]
      ring
    · simp [indexBufferSpec, hf, ih, List.countP_cons]

lemma isTriFRecord_head (l : GoString) (h : isTriFRecord l = true) :
    ∃ args, goFields l = ['f'] :: args ∧ args.length = 3 := by
  cases hg : goFields l with
  | nil => simp [isTriFRecord, hg] at h
  | cons tok args =>
    simp [isTriFRecord, hg] at h
    exact ⟨args, by rw [h.1], h.2⟩

lemma isVRecord_head (l : GoString) (h : isVRecord l = true) :
    ∃ args, goFields l = ['v'] :: args ∧ 3 ≤ args.length := by
  cases hg : goFields l with
  | nil => simp [isVRecord, hg] at h
  | cons tok args =>
    simp [isVRecord, hg] at h
    exact ⟨args, by rw [h.1], h.2⟩

lemma loadOBJFile_fst {F : Type} (pf : GoString → F) (lines : List GoString) :
    (loadOBJFile pf lines).1 = vertexBufferSpec pf lines := by
  induction lines with
  | nil => rfl
  | cons l ls ih =>
    simp only [loadOBJFile, vertexBufferSpec]
    rw [processLine_fst, ih]

lemma loadOBJFile_snd {F : Type} (pf : GoString → F) :
    ∀ lines : List GoString,
      (∀ l ∈ lines, ∀ tok args, goFields l = tok :: args → tok = ['f'] →
        args.length ≤ 3) →
      (∀ l ∈ lines, isTriFRecord l = true → ∀ a ∈ faceRefs l,
        1 ≤ goAtoi (goSplitSlashHead a) ∧ goAtoi (goSplitSlashHead a) ≤ 2 ^ 32) →
      (loadOBJFile pf lines).2 = indexBufferSpec lines := by
  intro lines
  induction lines with
  | nil => intro _ _; rfl
  | cons l ls ih =>
    intro hshape href
    simp only [loadOBJFile, indexBufferSpec]
    rw [processLine_snd pf l (fun tok args hg hf =>
          hshape l (List.mem_cons_self l ls) tok args hg hf),
        ih (fun m hm => hshape m (List.mem_cons_of_mem l hm))
           (fun m hm => href m (List.mem_cons_of_mem l hm))]
    congr 1
    by_cases hf : isTriFRecord l = true
    · simp only [hf, if_pos]
      apply List.map_congr_left
      intro a ha
      have hr := href l (List.mem_cons_self l ls) hf a ha
      exact faceFieldIndex_eq a hr.1 hr.2
    · simp [hf]

/-! ### Lemmas about the camera and input state machines -/

lemma mouseCallback_pitch_mem (dirFn : ℚ → ℚ → ℚ × ℚ × ℚ) (s : MouseState)
    (x y : ℚ) (h1 : -89 ≤ s.pitch) (h2 : s.pitch ≤ 89) :
    -89 ≤ (mouseCallback dirFn s x y).pitch ∧
      (mouseCallback dirFn s x y).pitch ≤ 89 := by
  unfold mouseCallback
  by_cases hf : s.firstMouse = true
  · simp [hf]; exact ⟨h1, h2⟩
  · simp only [Bool.not_eq_true] at hf
    simp [hf]
    split_ifs with hp1 hp2 hp2 <;> constructor <;> linarith

lemma runMouse_pitch_mem (dirFn : ℚ → ℚ → ℚ × ℚ × ℚ) :
    ∀ (samples : List (ℚ × ℚ)) (s : MouseState),
      -89 ≤ s.pitch → s.pitch ≤ 89 →
      -89 ≤ (runMouse dirFn s samples).pitch ∧
        (runMouse dirFn s samples).pitch ≤ 89 := by
  intro samples
  induction samples with
  | nil => intro s h1 h2; exact ⟨h1, h2⟩
  | cons p rest ih =>
    intro s h1 h2
    obtain ⟨x, y⟩ := p
    have hstep := mouseCallback_pitch_mem dirFn s x y h1 h2
    exact ih (mouseCallback dirFn s x y) hstep.1 hstep.2

lemma runSpeed_hold (j : Nat) :
    ∀ m : Nat, runSpeed ⟨j, true⟩ (List.replicate m true) = ⟨j, true⟩ := by
  intro m
  induction m with
  | zero => rfl
  | succ n ih =>
    simp only [List.replicate_succ, runSpeed]
    have hstep : processInputSpeed ⟨j, true⟩ true = ⟨j, true⟩ := by
      simp [processInputSpeed]
    rw [hstep, ih]

lemma processInputSpeed_lt (s : SpeedState) (b : Bool)
    (h : s.currentSpeedIndex < speedMultipliers.length) :
    (processInputSpeed s b).currentSpeedIndex < speedMultipliers.length := by
  unfold processInputSpeed
  split_ifs with hb
  · exact Nat.mod_lt _ (by simp [speedMultipliers])
  · exact h

lemma runSpeed_lt :
    ∀ (states : List Bool) (s : SpeedState),
      s.currentSpeedIndex < speedMultipliers.length →
      (runSpeed s states).currentSpeedIndex < speedMultipliers.length := by
  intro states
  induction states with
  | nil => intro s h; exact h
  | cons b rest ih =>
    intro s h
    exact ih (processInputSpeed s b) (processInputSpeed_lt s b h)

/-! ### Lemmas about scene loading -/

lemma loadMeshesRest_meshes (pf : GoString → ℚ) :
    ∀ (fs : List (List GoString)) (s : Scene),
      (loadMeshesRest pf fs s).meshes = s.meshes ++ fs.map (loadSingleMesh pf) := by
  intro fs
  induction fs with
  | nil => intro s; simp [loadMeshesRest]
  | cons f rest ih =>
    intro s
    simp [loadMeshesRest, ih]

lemma loadAllMeshes_meshes (pf : GoString → ℚ) (files : List (List GoString)) :
    (loadAllMeshes pf files).meshes = files.map (loadSingleMesh pf) := by
  cases files with
  | nil => rfl
  | cons f0 rest =>
    simp [loadAllMeshes, loadMeshesRest_meshes]

lemma getD_map {α β : Type} (f : α → β) :
    ∀ (l : List α) (k : Nat), k < l.length →
      ∀ (d : β) (d' : α), (l.map f).getD k d = f (l.getD k d') := by
  intro l
  induction l with
  | nil => intro k hk; simp at hk
  | cons a rest ih =>
    intro k hk d d'
    cases k with
    | zero => rfl
    | succ n =>
      simp only [List.map_cons, List.getD_cons_succ]
      exact ih n (by simpa using hk) d d'

lemma map_eraseIdx {α β : Type} (f : α → β) :
    ∀ (l : List α) (k : Nat), (l.map f).eraseIdx k = (l.eraseIdx k).map f := by
  intro l
  induction l with
  | nil => intro k; rfl
  | cons a rest ih =>
    intro k
    cases k with
    | zero => rfl
    | succ n => simp [List.eraseIdx_cons_succ, ih]

/-! ### Claim theorems -/

/-- C1: for a geometry file whose lines are N position records (`v` with
at least 3 following fields), M triangular face records (`f` with exactly
3 following fields — here: every `f` line has at most 3 following fields,
fewer contributing nothing) and inert lines (blank, unrecognized leading
token, or recognized with too few fields), `loadOBJFile` returns a vertex
buffer of exactly 3N floats in file order and an index buffer of exactly
3M indices in file order, each index equal to the face field's leading
integer reference minus one (references being in unsigned 32-bit range). -/
theorem loadOBJFile_buffers {F : Type} (pf : GoString → F)
    (lines : List GoString)
    (hshape : ∀ l ∈ lines, (goFields l).headD [] = ['f'] →
      (goFields l).length ≤ 4)
    (href : ∀ l ∈ lines, isTriFRecord l = true → ∀ a ∈ faceRefs l,
      1 ≤ goAtoi (goSplitSlashHead a) ∧ goAtoi (goSplitSlashHead a) ≤ 2 ^ 32) :
    (loadOBJFile pf lines).1 = vertexBufferSpec pf lines ∧
    (loadOBJFile pf lines).1.length = 3 * lines.countP isVRecord ∧
    (loadOBJFile pf lines).2 = indexBufferSpec lines ∧
    (loadOBJFile pf lines).2.length = 3 * lines.countP isTriFRecord := by
  have hshape' : ∀ l ∈ lines, ∀ tok args, goFields l = tok :: args →
      tok = ['f'] → args.length ≤ 3 := by
    intro l hl tok args hg hf
    have h4 := hshape l hl
    rw [hg, hf] at h4
    simp at h4
    omega
  have h1 := loadOBJFile_fst pf lines
  have h2 := loadOBJFile_snd pf lines hshape' href
  exact ⟨h1, by rw [h1, vertexBufferSpec_length], h2,
    by rw [h2, indexBufferSpec_length]⟩

/-- Witness for C1 at a concrete six-line file: two position records, one
triangular face record, one blank line, one unrecognized `vn` line and
one `f` line with too few fields. -/
theorem loadOBJFile_buffers_witness :
    ((loadOBJFile (fun _ => (0 : Int))
        ["v 1 2 0".toList, "vn 0 1 0".toList, "".toList, "f 1/2/3 2 3".toList,
          "v 4 5 6 7".toList, "f 2 1".toList]).1 =
      vertexBufferSpec (fun _ => (0 : Int))
        ["v 1 2 0".toList, "vn 0 1 0".toList, "".toList, "f 1/2/3 2 3".toList,
          "v 4 5 6 7".toList, "f 2 1".toList] ∧
    (loadOBJFile (fun _ => (0 : Int))
        ["v 1 2 0".toList, "vn 0 1 0".toList, "".toList, "f 1/2/3 2 3".toList,
          "v 4 5 6 7".toList, "f 2 1".toList]).1.length =
      3 * (["v 1 2 0".toList, "vn 0 1 0".toList, "".toList, "f 1/2/3 2 3".toList,
          "v 4 5 6 7".toList, "f 2 1".toList].countP isVRecord) ∧
    (loadOBJFile (fun _ => (0 : Int))
        ["v 1 2 0".toList, "vn 0 1 0".toList, "".toList, "f 1/2/3 2 3".toList,
          "v 4 5 6 7".toList, "f 2 1".toList]).2 =
      indexBufferSpec
        ["v 1 2 0".toList, "vn 0 1 0".toList, "".toList, "f 1/2/3 2 3".toList,
          "v 4 5 6 7".toList, "f 2 1".toList] ∧
    (loadOBJFile (fun _ => (0 : Int))
        ["v 1 2 0".toList, "vn 0 1 0".toList, "".toList, "f 1/2/3 2 3".toList,
          "v 4 5 6 7".toList, "f 2 1".toList]).2.length =
      3 * (["v 1 2 0".toList, "vn 0 1 0".toList, "".toList, "f 1/2/3 2 3".toList,
          "v 4 5 6 7".toList, "f 2 1".toList].countP isTriFRecord)) ∧
    (loadOBJFile (fun _ => (0 : Int))
        ["v 1 2 0".toList, "vn 0 1 0".toList, "".toList, "f 1/2/3 2 3".toList,
          "v 4 5 6 7".toList, "f 2 1".toList]).2 = [0, 1, 2] :=
  ⟨loadOBJFile_buffers (fun _ => (0 : Int)) _ (by decide) (by decide), by decide⟩

/-- C2 (code bug): the end-of-frame pacing sleep is
`time.Second/60 - time.Duration(deltaTime)*time.Second`.  The conversion
`time.Duration(deltaTime)` truncates the float64 seconds value toward
zero before the multiplication by `time.Second`, so for a 20 ms frame
body (deltaTime = 1/50, longer than the 1/60 s budget) the loop still
waits the full 16666666 ns, while the claimed wait — the budget minus
the frame delta, clamped at zero — is 0. -/
theorem frameWait_truncation_bug :
    frameWaitNs (1 / 50) = 16666666 ∧
    claimedWaitNs (1 / 50) = 0 ∧
    ((frameWaitNs (1 / 50) : ℚ) ≠ claimedWaitNs (1 / 50)) := by
  have htr : goTrunc (1 / 50) = 0 := by
    unfold goTrunc
    rw [if_neg (by norm_num)]
    exact Int.floor_eq_iff.mpr (by norm_num)
  have h1 : frameWaitNs (1 / 50) = 16666666 := by
    unfold frameWaitNs frameSleepArgNs timeSecond
    rw [htr]
    decide
  have h2 : claimedWaitNs (1 / 50) = 0 := by
    unfold claimedWaitNs
    rw [max_eq_left (by norm_num)]
  refine ⟨h1, h2, ?_⟩
  rw [h1, h2]
  norm_num

/-- C3: starting from any pitch in [-89, 89], the pitch after any
sequence of cursor samples stays in [-89, 89]; moreover a cumulative
vertical delta that would drive pitch to 150 leaves it at exactly 89,
and the symmetric negative delta leaves it at exactly -89 (the cursor
starts centered at (640, 360); the first sample only seeds the previous
position). -/
theorem pitch_clamp_invariant (dirFn : ℚ → ℚ → ℚ × ℚ × ℚ)
    (s : MouseState) (samples : List (ℚ × ℚ))
    (h1 : -89 ≤ s.pitch) (h2 : s.pitch ≤ 89) :
    (-89 ≤ (runMouse dirFn s samples).pitch ∧
      (runMouse dirFn s samples).pitch ≤ 89) ∧
    (runMouse dirFn
        { lastX := 640, lastY := 360, firstMouse := true, yaw := -90,
          pitch := 0, cameraFront := (0, 0, -1) }
        [(640, 360), (640, -1140)]).pitch = 89 ∧
    (runMouse dirFn
        { lastX := 640, lastY := 360, firstMouse := true, yaw := -90,
          pitch := 0, cameraFront := (0, 0, -1) }
        [(640, 360), (640, 1860)]).pitch = -89 := by
  refine ⟨runMouse_pitch_mem dirFn samples s h1 h2, ?_, ?_⟩ <;>
    norm_num [runMouse, mouseCallback, mouseSensitivity]

/-- Witness for C3 at a concrete start state with pitch 0 and an empty
sample list. -/
theorem pitch_clamp_invariant_witness :
    (-89 ≤ (runMouse (fun _ _ => (0, 0, 0))
        { lastX := 0, lastY := 0, firstMouse := false, yaw := 0, pitch := 0,
          cameraFront := (0, 0, 0) } []).pitch ∧
      (runMouse (fun _ _ => (0, 0, 0))
        { lastX := 0, lastY := 0, firstMouse := false, yaw := 0, pitch := 0,
          cameraFront := (0, 0, 0) } []).pitch ≤ 89) ∧
    (runMouse (fun _ _ => (0, 0, 0))
        { lastX := 640, lastY := 360, firstMouse := true, yaw := -90,
          pitch := 0, cameraFront := (0, 0, -1) }
        [(640, 360), (640, -1140)]).pitch = 89 ∧
    (runMouse (fun _ _ => (0, 0, 0))
        { lastX := 640, lastY := 360, firstMouse := true, yaw := -90,
          pitch := 0, cameraFront := (0, 0, -1) }
        [(640, 360), (640, 1860)]).pitch = -89 :=
  pitch_clamp_invariant (fun _ _ => (0, 0, 0))
    { lastX := 0, lastY := 0, firstMouse := false, yaw := 0, pitch := 0,
      cameraFront := (0, 0, 0) } [] (by decide) (by decide)

/-- C4: `combineBounds` is commutative and associative (elementwise
min/max of the two boxes' corners). -/
theorem combineBounds_comm_assoc (a b c : Bounds) :
    combineBounds a b = combineBounds b a ∧
    combineBounds (combineBounds a b) c = combineBounds a (combineBounds b c) := by
  constructor
  · simp only [combineBounds, Bounds.mk.injEq]
    exact ⟨min_comm _ _, min_comm _ _, min_comm _ _,
      max_comm _ _, max_comm _ _, max_comm _ _⟩
  · simp only [combineBounds, Bounds.mk.injEq]
    exact ⟨min_assoc _ _ _, min_assoc _ _ _, min_assoc _ _ _,
      max_assoc _ _ _, max_assoc _ _ _, max_assoc _ _ _⟩

/-- C5: the speed-multiplier index advances by exactly one position
(modulo the 5-element multiplier list) on each released-to-pressed
transition of the shift key and is unchanged otherwise; five press-edges
from index 0 return to index 0; a sustained hold of any length produces
exactly one advance; the index stays a valid position into the list. -/
theorem speedIndex_cycling :
    (∀ (s : SpeedState) (b : Bool), b = true → s.lastShiftState = false →
      (processInputSpeed s b).currentSpeedIndex =
        (s.currentSpeedIndex + 1) % speedMultipliers.length) ∧
    (∀ (s : SpeedState) (b : Bool), ¬(b = true ∧ s.lastShiftState = false) →
      (processInputSpeed s b).currentSpeedIndex = s.currentSpeedIndex) ∧
    (∀ (states : List Bool) (s : SpeedState),
      s.currentSpeedIndex < speedMultipliers.length →
      (runSpeed s states).currentSpeedIndex < speedMultipliers.length) ∧
    (runSpeed ⟨0, false⟩
      [true, false, true, false, true, false, true, false, true,
        false]).currentSpeedIndex = 0 ∧
    (∀ (n i : Nat),
      (runSpeed ⟨i, false⟩ (List.replicate (n + 1) true)).currentSpeedIndex =
        (i + 1) % speedMultipliers.length) := by
  refine ⟨?_, ?_, ?_, by decide, ?_⟩
  · intro s b hb hl
    subst hb
    simp [processInputSpeed, hl]
  · intro s b hnot
    simp only [processInputSpeed]
    split_ifs with hcond
    · simp only [Bool.and_eq_true, Bool.not_eq_true'] at hcond
      exact absurd hcond hnot
    · rfl
  · exact runSpeed_lt
  · intro n i
    simp only [List.replicate_succ, runSpeed]
    have hstep : processInputSpeed ⟨i, false⟩ true =
        ⟨(i + 1) % speedMultipliers.length, true⟩ := by
      simp [processInputSpeed]
    rw [hstep, runSpeed_hold]

/-- Witness for C5: one press-edge from index 0; a no-op frame with
shift already held; a two-frame run staying in range; a seven-frame
sustained hold from index 2 advancing exactly once. -/
theorem speedIndex_cycling_witness :
    (processInputSpeed ⟨0, false⟩ true).currentSpeedIndex =
      (0 + 1) % speedMultipliers.length ∧
    (processInputSpeed ⟨3, true⟩ true).currentSpeedIndex = 3 ∧
    (runSpeed ⟨0, false⟩ [true, true]).currentSpeedIndex <
      speedMultipliers.length ∧
    (runSpeed ⟨2, false⟩ (List.replicate 7 true)).currentSpeedIndex =
      (2 + 1) % speedMultipliers.length :=
  ⟨speedIndex_cycling.1 ⟨0, false⟩ true rfl rfl,
   speedIndex_cycling.2.1 ⟨3, true⟩ true (by simp),
   speedIndex_cycling.2.2.1 [true, true] ⟨0, false⟩ (by decide),
   speedIndex_cycling.2.2.2.2 6 2⟩

/-- C6 counterexample: the claim — the file-selection dialog fires only
on a press-edge of F1 (pressed now, released on the previous frame) — is
false: with F1 held on two consecutive frames, `checkFileReload` invokes
the dialog on the second frame as well, although it is not a press-edge. -/
theorem checkFileReload_pressEdge_counterexample :
    ¬ (∀ (states : List Bool) (sel : SelResult) (t : Nat),
        t < states.length →
        (checkFileReload (states.getD t false) sel).2 = specPressEdgeAt states t) := by
  intro h
  exact absurd (h [true, true] { files := [], isErr := false } 1 (by decide))
    (by decide)

/-- C6 amended: `checkFileReload` is level-triggered — the dialog is
invoked on exactly the frames where F1 currently reads as pressed,
regardless of the previous frame's state, so it fires again on every
frame F1 remains held. -/
theorem checkFileReload_level_triggered (f1Pressed : Bool) (sel : SelResult) :
    (checkFileReload f1Pressed sel).2 = f1Pressed := by
  cases f1Pressed <;> rfl

/-- C7: a cancelled (error) or empty hot-reload selection leaves the
scene record entirely unchanged and does not update the window title;
the swap happens exactly when the selection succeeded with at least one
path. -/
theorem reloadStep_cancelled_unchanged (load : List GoString → Scene)
    (scene : Scene) (chk : SelResult)
    (h : chk.isErr = true ∨ chk.files = []) :
    reloadStep load scene chk = (scene, false) ∧
    (∀ c : SelResult, ((reloadStep load scene c).2 = true ↔
      (c.isErr = false ∧ 0 < c.files.length))) := by
  constructor
  · rcases h with h | h <;> simp [reloadStep, h]
  · intro c
    unfold reloadStep
    split_ifs with hc
    · simp only [Bool.and_eq_true, Bool.not_eq_true', decide_eq_true_eq] at hc
      simp [hc]
    · simp only [Bool.and_eq_true, Bool.not_eq_true', decide_eq_true_eq,
        not_and] at hc
      constructor
      · intro hfalse; simp at hfalse
      · intro hcond; exact absurd hcond.2 (hc hcond.1)

/-- Witness for C7 at a cancelled selection against a one-mesh scene. -/
theorem reloadStep_cancelled_unchanged_witness :
    reloadStep (fun _ => { meshes := [], bounds := emptyMeshData.bounds })
        { meshes := [emptyMeshData], bounds := emptyMeshData.bounds }
        { files := [], isErr := true } =
      ({ meshes := [emptyMeshData], bounds := emptyMeshData.bounds }, false) :=
  (reloadStep_cancelled_unchanged
    (fun _ => { meshes := [], bounds := emptyMeshData.bounds })
    { meshes := [emptyMeshData], bounds := emptyMeshData.bounds }
    { files := [], isErr := true } (Or.inl rfl)).1

/-- C8: in a multi-file load, a file parsing to zero vertices or zero
indices yields the empty placeholder mesh record instead of aborting
(every file still produces exactly one mesh record, each the independent
load of its own file), and removing the degenerate file from the list
leaves every sibling's mesh record — vertex buffer, index buffer and
per-mesh bounds — exactly as before. -/
theorem loadAllMeshes_degenerate (pf : GoString → ℚ)
    (files : List (List GoString)) (k : Nat) (hk : k < files.length)
    (hdeg : (loadOBJFile pf (files.getD k [])).1.length = 0 ∨
      (loadOBJFile pf (files.getD k [])).2.length = 0) :
    (loadAllMeshes pf files).meshes = files.map (loadSingleMesh pf) ∧
    (loadAllMeshes pf files).meshes.getD k emptyMeshData = emptyMeshData ∧
    (loadAllMeshes pf (files.eraseIdx k)).meshes =
      ((loadAllMeshes pf files).meshes).eraseIdx k := by
  have hmap := loadAllMeshes_meshes pf files
  refine ⟨hmap, ?_, ?_⟩
  · rw [hmap, getD_map (loadSingleMesh pf) files k hk emptyMeshData []]
    simp only [loadSingleMesh]
    rw [if_pos hdeg]
  · rw [hmap, loadAllMeshes_meshes, map_eraseIdx]

/-- Witness for C8: two files, the second of which has vertices but no
face records (zero indices). -/
theorem loadAllMeshes_degenerate_witness :
    (loadAllMeshes (fun _ => (0 : ℚ))
        [["v 1 2 3".toList, "f 1 2 3".toList], ["v 1 2 3".toList]]).meshes =
      [["v 1 2 3".toList, "f 1 2 3".toList], ["v 1 2 3".toList]].map
        (loadSingleMesh (fun _ => (0 : ℚ))) ∧
    (loadAllMeshes (fun _ => (0 : ℚ))
        [["v 1 2 3".toList, "f 1 2 3".toList],
          ["v 1 2 3".toList]]).meshes.getD 1 emptyMeshData = emptyMeshData ∧
    (loadAllMeshes (fun _ => (0 : ℚ))
        ([["v 1 2 3".toList, "f 1 2 3".toList],
          ["v 1 2 3".toList]].eraseIdx 1)).meshes =
      ((loadAllMeshes (fun _ => (0 : ℚ))
        [["v 1 2 3".toList, "f 1 2 3".toList],
          ["v 1 2 3".toList]]).meshes).eraseIdx 1 :=
  loadAllMeshes_degenerate (fun _ => (0 : ℚ))
    [["v 1 2 3".toList, "f 1 2 3".toList], ["v 1 2 3".toList]] 1
    (by decide) (by decide)

/-- C9: the very first cursor sample (delivered while `firstMouse` is
set) produces no rotation: it only seeds the stored previous position
and clears the flag, leaving yaw, pitch and the derived front vector
exactly unchanged. -/
theorem mouseCallback_first_sample (dirFn : ℚ → ℚ → ℚ × ℚ × ℚ)
    (s : MouseState) (x y : ℚ) (h : s.firstMouse = true) :
    mouseCallback dirFn s x y =
      { s with lastX := x, lastY := y, firstMouse := false } := by
  simp [mouseCallback, h]

/-- Witness for C9 at the startup state (cursor centered, pitch 0,
yaw -90). -/
theorem mouseCallback_first_sample_witness :
    mouseCallback (fun _ _ => (0, 0, 0))
        { lastX := 640, lastY := 360, firstMouse := true, yaw := -90,
          pitch := 0, cameraFront := (0, 0, -1) } 100 200 =
      { lastX := 100, lastY := 200, firstMouse := false, yaw := -90,
        pitch := 0, cameraFront := (0, 0, -1) } :=
  mouseCallback_first_sample (fun _ _ => (0, 0, 0))
    { lastX := 640, lastY := 360, firstMouse := true, yaw := -90,
      pitch := 0, cameraFront := (0, 0, -1) } 100 200 rfl

/-- C10: a face field whose leading slash-separated component parses to
zero (either the literal `0` or a failed parse, which substitutes zero)
contributes the wrapped index 4294967295 = (0 - 1) mod 2^32 to the index
buffer — an out-of-range reference, not a zero index and not a skipped
entry: the file `f x/1 0 1` after one vertex yields exactly the three
indices [4294967295, 4294967295, 0]. -/
theorem faceFieldIndex_zero_wraps (a : GoString)
    (h : goAtoi (goSplitSlashHead a) = 0) :
    faceFieldIndex a = 4294967295 ∧
    (loadOBJFile (fun _ => (0 : Int))
      ["v 0 0 0".toList, "f x/1 0 1".toList]).2 =
      [4294967295, 4294967295, 0] := by
  constructor
  · unfold faceFieldIndex
    rw [h]
    decide
  · decide

/-- Witness for C10 at the literal reference `0` (leading component of
the field `0/2/3`). -/
theorem faceFieldIndex_zero_wraps_witness :
    faceFieldIndex "0/2/3".toList = 4294967295 ∧
    (loadOBJFile (fun _ => (0 : Int))
      ["v 0 0 0".toList, "f x/1 0 1".toList]).2 =
      [4294967295, 4294967295, 0] :=
  faceFieldIndex_zero_wraps "0/2/3".toList (by decide)
